import Mathlib

/-
Verification development for qbitun (src/main.rs), a reconciler that keeps a
qBittorrent listening port synchronized with the forwarded port reported by a
Gluetun VPN sidecar.

The Rust source is shallowly embedded: each HTTP operation becomes a pure
function from the (modelled) HTTP response it would receive to the value or
error the Rust function returns; `sync_ports` becomes a pure function from a
per-pass environment (the four responses) to the trace of calls issued and the
pass outcome; the scheduler loop in `main` becomes a map over a list of
per-pass environments.  JSON bodies are modelled with a small JSON value type
and an executable text parser covering the fragment the program exchanges
(objects, arrays, strings with simple escapes, integers, booleans, null;
floating-point numbers are outside the model, no claim involves them).
-/

namespace Qbitun

/-- JSON values, as produced by serde_json for the bodies this program
exchanges.  Numbers are modelled as integers; the object keeps fields in
source order (duplicates included, resolved by the accessors). -/
inductive Json where
  | null : Json
  | bool : Bool → Json
  | num : Int → Json
  | str : String → Json
  | arr : List Json → Json
  | obj : List (String × Json) → Json
deriving Repr

/-- Drop leading JSON whitespace. -/
def skipWs : List Char → List Char
  | c :: cs =>
    if c = ' ' ∨ c = '\n' ∨ c = '\t' ∨ c = '\r' then skipWs cs else c :: cs
  | [] => []

/-- Split a leading run of decimal digits from the rest. -/
def takeDigits : List Char → List Char × List Char
  | [] => ([], [])
  | c :: cs =>
    if c.isDigit then
      let (ds, rest) := takeDigits cs
      (c :: ds, rest)
    else ([], c :: cs)

/-- Value of a digit string. -/
def digitsToNat (ds : List Char) : Nat :=
  ds.foldl (fun acc c => acc * 10 + (c.toNat - '0'.toNat)) 0

/-- Parse a nonempty digit run into a natural number; reject a following
fraction or exponent marker (floating-point numbers are outside the model). -/
def parseIntDigits (s : List Char) : Option (Nat × List Char) :=
  match takeDigits s with
  | ([], _) => none
  | (ds, rest) =>
    match rest with
    | r :: _ =>
      if r = '.' ∨ r = 'e' ∨ r = 'E' then none else some (digitsToNat ds, rest)
    | [] => some (digitsToNat ds, [])

/-- Consume an expected literal keyword suffix, returning the remainder. -/
def expectChars : List Char → List Char → Option (List Char)
  | [], s => some s
  | p :: ps, c :: cs => if c = p then expectChars ps cs else none
  | _ :: _, [] => none

/-- Read the characters of a JSON string literal after the opening quote, up
to the closing quote, decoding the simple escapes. -/
def parseStringChars : List Char → Option (List Char × List Char)
  | [] => none
  | c :: cs =>
    if c = '"' then some ([], cs)
    else if c = '\\' then
      match cs with
      | [] => none
      | e :: cs2 =>
        let esc : Option Char :=
          if e = '"' then some '"'
          else if e = '\\' then some '\\'
          else if e = '/' then some '/'
          else if e = 'n' then some '\n'
          else if e = 't' then some '\t'
          else if e = 'r' then some '\r'
          else none
        match esc with
        | none => none
        | some ch =>
          match parseStringChars cs2 with
          | none => none
          | some (rest, rem) => some (ch :: rest, rem)
    else
      match parseStringChars cs with
      | none => none
      | some (rest, rem) => some (c :: rest, rem)

mutual

/-- Parse one JSON value (fuel-indexed recursive descent). -/
def parseValue (fuel : Nat) (s : List Char) : Option (Json × List Char) :=
  match fuel with
  | 0 => none
  | fuel + 1 =>
    match skipWs s with
    | [] => none
    | c :: cs =>
      if c = 'n' then
        match expectChars ['u', 'l', 'l'] cs with
        | some rest => some (Json.null, rest)
        | none => none
      else if c = 't' then
        match expectChars ['r', 'u', 'e'] cs with
        | some rest => some (Json.bool true, rest)
        | none => none
      else if c = 'f' then
        match expectChars ['a', 'l', 's', 'e'] cs with
        | some rest => some (Json.bool false, rest)
        | none => none
      else if c = '"' then
        match parseStringChars cs with
        | some (chars, rest) => some (Json.str (String.mk chars), rest)
        | none => none
      else if c = '-' then
        match parseIntDigits cs with
        | some (k, rest) => some (Json.num (-(k : Int)), rest)
        | none => none
      else if c.isDigit then
        match parseIntDigits (c :: cs) with
        | some (k, rest) => some (Json.num (k : Int), rest)
        | none => none
      else if c = '[' then
        match skipWs cs with
        | ']' :: rest => some (Json.arr [], rest)
        | s2 =>
          match parseElems fuel s2 with
          | some (elems, rest) => some (Json.arr elems, rest)
          | none => none
      else if c = '\x7b' then
        match skipWs cs with
        | '\x7d' :: rest => some (Json.obj [], rest)
        | s2 =>
          match parseMembers fuel s2 with
          | some (mems, rest) => some (Json.obj mems, rest)
          | none => none
      else none

/-- Parse a nonempty comma-separated list of array elements up to `]`. -/
def parseElems (fuel : Nat) (s : List Char) : Option (List Json × List Char) :=
  match fuel with
  | 0 => none
  | fuel + 1 =>
    match parseValue fuel s with
    | none => none
    | some (v, rest) =>
      match skipWs rest with
      | ',' :: rest2 =>
        match parseElems fuel rest2 with
        | some (vs, rest3) => some (v :: vs, rest3)
        | none => none
      | ']' :: rest2 => some ([v], rest2)
      | _ => none

/-- Parse a nonempty comma-separated list of object members up to the
closing brace. -/
def parseMembers (fuel : Nat) (s : List Char) :
    Option (List (String × Json) × List Char) :=
  match fuel with
  | 0 => none
  | fuel + 1 =>
    match skipWs s with
    | '"' :: cs =>
      match parseStringChars cs with
      | none => none
      | some (keyChars, rest) =>
        match skipWs rest with
        | ':' :: rest2 =>
          match parseValue fuel rest2 with
          | none => none
          | some (v, rest3) =>
            match skipWs rest3 with
            | ',' :: rest4 =>
              match parseMembers fuel rest4 with
              | some (mems, rest5) =>
                some ((String.mk keyChars, v) :: mems, rest5)
              | none => none
            | '\x7d' :: rest4 => some ([(String.mk keyChars, v)], rest4)
            | _ => none
        | _ => none
    | _ => none

end

/-- Parse a whole response body as a single JSON document. -/
def parseJson (s : String) : Option Json :=
  match parseValue (2 * s.length + 2) s.data with
  | some (j, rest) => if skipWs rest = [] then some j else none
  | none => none

/-- Field lookup on a serde_json object value, as used by
`prefs.get("listen_port")` in `get_qbittorrent_port`.  serde_json builds its
object map with later duplicate keys overwriting earlier ones, so the last
occurrence wins. -/
def jsonGet (j : Json) (key : String) : Option Json :=
  match j with
  | Json.obj fields =>
    ((fields.filter (fun kv => kv.1 = key)).map (fun kv => kv.2)).getLast?
  | _ => none

/-- serde_json `Value::as_u64`: the value when it is an integer representable
as an unsigned 64-bit number (below 18446744073709551616 = 2^64), `none`
otherwise. -/
def as_u64 : Json → Option Nat
  | Json.num n => if 0 ≤ n ∧ n < 18446744073709551616 then some n.toNat else none
  | _ => none

/-- Scan the fields of a JSON object for the single `port` member, as serde's
derived deserializer for `struct GluetunPort` does: unknown fields are
ignored, a duplicate `port` field is an error. -/
def findPortField : List (String × Json) → Option Json → Except String (Option Json)
  | [], acc => Except.ok acc
  | (k, v) :: rest, acc =>
    if k = "port" then
      match acc with
      | some _ => Except.error "duplicate field port"
      | none => findPortField rest (some v)
    else findPortField rest acc

/-- serde deserialization of `struct GluetunPort \x7b port: u16 \x7d` from a
JSON value: requires a JSON object with exactly one `port` member holding an
integer in the u16 range [0, 65535]. -/
def deserializeGluetunPort : Json → Except String Nat
  | Json.obj fields =>
    match findPortField fields none with
    | Except.error e => Except.error e
    | Except.ok none => Except.error "missing field port"
    | Except.ok (some v) =>
      match v with
      | Json.num n =>
        if 0 ≤ n ∧ n ≤ 65535 then Except.ok n.toNat
        else Except.error "invalid value: integer out of range for u16"
      | _ => Except.error "invalid type for field port"
  | _ => Except.error "invalid type: expected struct GluetunPort"

/-- An HTTP response as the program observes it: status code and body text.
A call that fails at the transport layer delivers no response, modelled by
`Option HttpResponse` at each call site (the `?` on `send()`). -/
structure HttpResponse where
  status : Nat
  body : String
deriving Repr, DecidableEq

/-- reqwest `StatusCode::is_success`: the 2xx range. -/
def isSuccess (status : Nat) : Bool := 200 ≤ status && status < 300

/-- Error message produced by `login_qbittorrent` on HTTP 403. -/
def accountLockedError : String :=
  "Authentication failed with qBittorrent: User\x27s IP is banned for too many failed login attempts"

/-- Error message produced by `login_qbittorrent` on any other non-success
status. -/
def invalidCredentialsError : String :=
  "Failed to authenticate to qBittorrent. Please check your credentials and URL."

/-- Embedding of `get_gluetun_port` (src/main.rs lines 182-195): propagate a
transport error, then deserialize the body via
`response.json::<GluetunPort>()` — the status code is never inspected and the
only accepted shape is a JSON object with a u16 `port` field. -/
def get_gluetun_port (resp : Option HttpResponse) : Except String Nat :=
  match resp with
  | none => Except.error "transport error"
  | some r =>
    match parseJson r.body with
    | none => Except.error "error decoding response body"
    | some j => deserializeGluetunPort j

/-- Embedding of `login_qbittorrent` (src/main.rs lines 210-240): a 2xx
status is success regardless of the body; 403 yields the account-locked
error; any other status yields the generic credentials error. -/
def login_qbittorrent (resp : Option HttpResponse) : Except String Unit :=
  match resp with
  | none => Except.error "transport error"
  | some r =>
    if isSuccess r.status then Except.ok ()
    else if r.status = 403 then Except.error accountLockedError
    else Except.error invalidCredentialsError

/-- Embedding of `get_qbittorrent_port` (src/main.rs lines 253-272): on a 2xx
status, parse the body as a JSON value, read `listen_port` via `as_u64`, and
return `port as u16`, i.e. the value reduced modulo 2^16; a missing or
non-integer field is an error; a non-success status is an error. -/
def get_qbittorrent_port (resp : Option HttpResponse) : Except String Nat :=
  match resp with
  | none => Except.error "transport error"
  | some r =>
    if isSuccess r.status then
      match parseJson r.body with
      | none => Except.error "error decoding response body"
      | some prefs =>
        match (jsonGet prefs "listen_port").bind as_u64 with
        | some port => Except.ok (port % 65536)
        | none => Except.error "listen_port not found in preferences"
    else Except.error "Failed to retrieve qBittorrent preferences"

/-- Embedding of `set_qbittorrent_port` (src/main.rs lines 286-304): any 2xx
status is success, anything else is an error. -/
def set_qbittorrent_port (resp : Option HttpResponse) : Except String Unit :=
  match resp with
  | none => Except.error "transport error"
  | some r =>
    if isSuccess r.status then Except.ok ()
    else Except.error "An error occurred while setting the port."

/-- The per-pass environment: the response (or transport failure) each of the
four HTTP endpoints would deliver if called during this pass.  `sync_ports`
consults them strictly in program order, so a pure function of this record is
a faithful model of one pass. -/
structure PassEnv where
  gluetunResp : Option HttpResponse
  loginResp : Option HttpResponse
  prefsResp : Option HttpResponse
  setResp : Option HttpResponse
deriving Repr, DecidableEq

/-- One outbound HTTP call issued during a pass, in issue order. -/
inductive Call where
  | getGluetun : Call
  | login : Call
  | getPrefs : Call
  | setPrefs : Nat → Call
deriving Repr, DecidableEq

/-- The terminal outcome of one pass, mirroring which log line `sync_ports`
emits on its final branch. -/
inductive PassOutcome where
  | sourceFailed : PassOutcome
  | authFailed : PassOutcome
  | sinkReadFailed : PassOutcome
  | synchronized : Nat → PassOutcome
  | updated : Nat → PassOutcome
  | writeFailed : Nat → PassOutcome
deriving Repr, DecidableEq

/-- Embedding of `sync_ports` (src/main.rs lines 107-164): fetch the Gluetun
port, log in to qBittorrent, fetch the current qBittorrent port, and set it
only when it differs; each failure logs and returns immediately.  The result
is the ordered list of calls issued together with the pass outcome. -/
def sync_ports (env : PassEnv) : List Call × PassOutcome :=
  match get_gluetun_port env.gluetunResp with
  | Except.error _ => ([Call.getGluetun], PassOutcome.sourceFailed)
  | Except.ok port =>
    match login_qbittorrent env.loginResp with
    | Except.error _ => ([Call.getGluetun, Call.login], PassOutcome.authFailed)
    | Except.ok _ =>
      match get_qbittorrent_port env.prefsResp with
      | Except.error _ =>
        ([Call.getGluetun, Call.login, Call.getPrefs], PassOutcome.sinkReadFailed)
      | Except.ok current_port =>
        if current_port ≠ port then
          match set_qbittorrent_port env.setResp with
          | Except.error _ =>
            ([Call.getGluetun, Call.login, Call.getPrefs, Call.setPrefs port],
              PassOutcome.writeFailed port)
          | Except.ok _ =>
            ([Call.getGluetun, Call.login, Call.getPrefs, Call.setPrefs port],
              PassOutcome.updated port)
        else
          ([Call.getGluetun, Call.login, Call.getPrefs],
            PassOutcome.synchronized port)

/-- The ports carried by the `setPreferences` writes in a call trace. -/
def writeCalls (calls : List Call) : List Nat :=
  calls.filterMap fun c =>
    match c with
    | Call.setPrefs p => some p
    | _ => none

/-- The number of login calls in a call trace. -/
def loginCount (calls : List Call) : Nat :=
  (calls.filter (fun c => c = Call.login)).length

/-- Embedding of the scheduler loop in `main` (src/main.rs lines 41-45):
every iteration unconditionally runs `sync_ports` on that iteration's
environment and continues; `sync_ports` returns `()` in the source, so no
error can escape an iteration.  Running the loop over a finite prefix of
iterations is a map. -/
def run_loop (envs : List PassEnv) : List (List Call × PassOutcome) :=
  envs.map sync_ports

/-- Start time of each pass under the scheduler: pass 0 starts immediately;
after pass `n` runs for `durations n`, the loop sleeps the full configured
interval before pass `n + 1` starts (src/main.rs line 44). -/
def passStart (interval : Nat) (durations : Nat → Nat) : Nat → Nat
  | 0 => 0
  | n + 1 => passStart interval durations n + durations n + interval

/-- One scheduler iteration input: the pass environment together with whether
an external shutdown signal has been received by the time the iteration
starts.  The loop body in `main` is an unconditional `loop` that consults no
signal, so the flag is ignored by the embedded loop. -/
structure LoopInput where
  env : PassEnv
  shutdownSignal : Bool

/-- The scheduler loop run over iteration inputs that carry a shutdown-signal
flag: mirroring src/main.rs lines 41-45, the body never reads the flag and
never breaks out of the loop. -/
def run_loop_with_signals (inputs : List LoopInput) : List (List Call × PassOutcome) :=
  inputs.map fun i => sync_ports i.env

/-- The process environment, a finite map from variable names to values
modelled as an association list with distinct keys looked up front-first. -/
def EnvMap : Type := List (String × String)

/-- `std::env::var`. -/
def env_var : EnvMap → String → Option String
  | [], _ => none
  | (k, v) :: rest, name => if k = name then some v else env_var rest name

/-- `std::env::remove_var`: drop every binding of the name. -/
def remove_var : EnvMap → String → EnvMap
  | [], _ => []
  | (k, v) :: rest, name =>
    if k = name then remove_var rest name else (k, v) :: remove_var rest name

/-- Embedding of `get_env_var` (src/main.rs lines 82-91): read a variable,
leaving the environment untouched. -/
def get_env_var (e : EnvMap) (name : String) : Option String :=
  env_var e name

/-- Embedding of `get_secret_from_env` (src/main.rs lines 58-70): read a
variable and remove it from the environment, returning the secret and the
updated environment. -/
def get_secret_from_env (e : EnvMap) (name : String) :
    Option (String × EnvMap) :=
  match env_var e name with
  | some secret => some (secret, remove_var e name)
  | none => none

/-- Rust `str::parse::<u64>` restricted to plain digit strings: a nonempty
all-digit body yields its value when it fits in the u64 range.  (Rust also
accepts a leading plus sign; no claim depends on that.) -/
def parse_u64 (s : String) : Option Nat :=
  match s.data with
  | [] => none
  | ds =>
    if ds.all Char.isDigit then
      if digitsToNat ds < 2 ^ 64 then some (digitsToNat ds) else none
    else none

/-- The configuration read at startup (src/main.rs lines 20-32). -/
structure Config where
  qbittorrent_url : String
  qbittorrent_username : String
  qbittorrent_password : String
  gluetun_url : String
  gluetun_api_key : String
  interval_seconds : Nat
deriving Repr, DecidableEq

/-- Embedding of the startup reads in `main` (src/main.rs lines 20-32), in
program order, threading the environment through the two secret reads; any
missing variable or unparsable interval aborts startup (the process exits
before the loop). -/
def startup (e : EnvMap) : Option (Config × EnvMap) :=
  (get_env_var e "QBITTORRENT_URL").bind fun url =>
  (get_env_var e "QBITTORRENT_USERNAME").bind fun user =>
  (get_secret_from_env e "QBITTORRENT_PASSWORD").bind fun pe =>
  (get_env_var pe.2 "GLUETUN_URL").bind fun gurl =>
  (get_secret_from_env pe.2 "GLUETUN_API_KEY").bind fun ke =>
  (get_env_var ke.2 "INTERVAL_SECONDS").bind fun ivs =>
  (parse_u64 ivs).map fun iv =>
  (⟨url, user, pe.1, gurl, ke.1, iv⟩, ke.2)

/-- C1: in every pass in which the source port and the sink's current port
are both successfully fetched (the login between them having succeeded, or
the sink fetch would never run), the pass issues exactly one
`setPreferences` write carrying the source port when the two ports differ
and no write when they are equal; both compared values come from this pass's
own environment, so no stale value can enter the comparison. -/
theorem sync_writes_iff_ports_differ (env : PassEnv) (p q : Nat)
    (hsrc : get_gluetun_port env.gluetunResp = Except.ok p)
    (hauth : login_qbittorrent env.loginResp = Except.ok ())
    (hsink : get_qbittorrent_port env.prefsResp = Except.ok q) :
    writeCalls (sync_ports env).1 = if q = p then [] else [p] := by
  simp only [sync_ports, hsrc, hauth, hsink]
  by_cases h : q = p
  · simp [h, writeCalls]
  · simp only [ne_eq, h, not_false_iff, if_pos, if_neg]
    cases hw : set_qbittorrent_port env.setResp <;>
      simp [h, writeCalls]

/-- Witness for C1 at a concrete pass: source reports 51413, sink holds
12345, so the trace carries exactly the one write of 51413. -/
theorem sync_writes_iff_ports_differ_witness :
    writeCalls (sync_ports ⟨some ⟨200, "\x7b\"port\": 51413\x7d"⟩,
        some ⟨200, "Ok."⟩, some ⟨200, "\x7b\"listen_port\": 12345\x7d"⟩,
        some ⟨200, ""⟩⟩).1 = if 12345 = 51413 then [] else [51413] :=
  sync_writes_iff_ports_differ _ 51413 12345 rfl rfl rfl

/-- C2 counterexample: the plain-text response body containing 51413 followed
by a newline does parse as the JSON number 51413 (its trimmed content is an
unsigned integer), yet `get_gluetun_port` rejects it with serde's
invalid-type error instead of returning port 51413, because the code only
ever attempts `response.json::<GluetunPort>()`. -/
theorem plain_text_body_rejected :
    parseJson "51413\n" = some (Json.num 51413) ∧
    get_gluetun_port (some ⟨200, "51413\n"⟩)
      = Except.error "invalid type: expected struct GluetunPort" :=
  ⟨rfl, rfl⟩

/-- C2 amended: `get_gluetun_port` accepts only the JSON-object response
shape — a JSON object with a numeric `port` field yields the port, while any
body whose JSON value is a bare number (the plain-text shape) is rejected
with an invalid-type error rather than parsed as a port. -/
theorem gluetun_accepts_json_object_only :
    get_gluetun_port (some ⟨200, "\x7b\"port\": 51413\x7d"⟩) = Except.ok 51413 ∧
    ∀ r : HttpResponse, ∀ n : Int, parseJson r.body = some (Json.num n) →
      get_gluetun_port (some r)
        = Except.error "invalid type: expected struct GluetunPort" := by
  refine ⟨rfl, fun r n hparse => ?_⟩
  simp [get_gluetun_port, hparse, deserializeGluetunPort]

/-- Witness for the amended C2 at the concrete plain-text body. -/
theorem gluetun_accepts_json_object_only_witness :
    get_gluetun_port (some ⟨200, "51413\n"⟩)
      = Except.error "invalid type: expected struct GluetunPort" :=
  gluetun_accepts_json_object_only.2 ⟨200, "51413\n"⟩ 51413 rfl

/-- C7: whenever the source response is a JSON object whose single `port`
member holds an integer outside the 16-bit unsigned range [0, 65535] — on
either side, negative or above 65535 — `get_gluetun_port` fails with serde's
out-of-range error and never returns a truncated port. -/
theorem out_of_range_source_port_rejected (r : HttpResponse)
    (fields : List (String × Json)) (n : Int)
    (hparse : parseJson r.body = some (Json.obj fields))
    (hport : findPortField fields none = Except.ok (some (Json.num n)))
    (hrange : n < 0 ∨ 65535 < n) :
    get_gluetun_port (some r)
      = Except.error "invalid value: integer out of range for u16" := by
  have hcond : ¬(0 ≤ n ∧ n ≤ 65535) := by omega
  simp [get_gluetun_port, hparse, deserializeGluetunPort, hport, hcond]

/-- Witness for C7 on both sides of the range: a source value of 70000
yields the out-of-range error (not the truncated port 4464), and so does a
source value of -1. -/
theorem out_of_range_source_port_rejected_witness :
    get_gluetun_port (some ⟨200, "\x7b\"port\": 70000\x7d"⟩)
      = Except.error "invalid value: integer out of range for u16" ∧
    get_gluetun_port (some ⟨200, "\x7b\"port\": -1\x7d"⟩)
      = Except.error "invalid value: integer out of range for u16" :=
  ⟨out_of_range_source_port_rejected ⟨200, "\x7b\"port\": 70000\x7d"⟩
      [("port", Json.num 70000)] 70000 rfl rfl (Or.inr (by decide)),
    out_of_range_source_port_rejected ⟨200, "\x7b\"port\": -1\x7d"⟩
      [("port", Json.num (-1))] (-1) rfl rfl (Or.inl (by decide))⟩

/-- C3 counterexample: two consecutive fully successful passes — the cookie
session obtained in the first pass is still valid during the second — issue
two login calls in total, not one, because `sync_ports` calls
`login_qbittorrent` unconditionally on every pass. -/
theorem two_passes_two_logins :
    loginCount ((sync_ports ⟨some ⟨200, "\x7b\"port\": 51413\x7d"⟩,
          some ⟨200, "Ok."⟩, some ⟨200, "\x7b\"listen_port\": 51413\x7d"⟩,
          some ⟨200, ""⟩⟩).1 ++
        (sync_ports ⟨some ⟨200, "\x7b\"port\": 51413\x7d"⟩,
          some ⟨200, "Ok."⟩, some ⟨200, "\x7b\"listen_port\": 51413\x7d"⟩,
          some ⟨200, ""⟩⟩).1) = 2 ∧ (2 : Nat) ≠ 1 :=
  ⟨rfl, by decide⟩

/-- C3 amended: every pass that gets past the source fetch issues exactly one
login call, regardless of any session obtained in an earlier pass, and there
is no second login within a pass (in particular no re-login after an
unauthorized sink response); hence n consecutive passes perform n logins, not
one. -/
theorem login_called_every_pass (env : PassEnv) (p : Nat)
    (hsrc : get_gluetun_port env.gluetunResp = Except.ok p) :
    loginCount (sync_ports env).1 = 1 := by
  simp only [sync_ports, hsrc]
  cases hl : login_qbittorrent env.loginResp with
  | error e => rfl
  | ok u =>
    cases hq : get_qbittorrent_port env.prefsResp with
    | error e => rfl
    | ok q =>
      by_cases h : q ≠ p
      · simp only [if_pos h]
        cases hw : set_qbittorrent_port env.setResp <;> rfl
      · simp only [if_neg h]
        rfl

/-- Witness for the amended C3 at a concrete successful pass. -/
theorem login_called_every_pass_witness :
    loginCount (sync_ports ⟨some ⟨200, "\x7b\"port\": 51413\x7d"⟩,
        some ⟨200, "Ok."⟩, some ⟨200, "\x7b\"listen_port\": 51413\x7d"⟩,
        some ⟨200, ""⟩⟩).1 = 1 :=
  login_called_every_pass _ 51413 rfl

/-- C4 counterexample: when the preferences fetch comes back 403
(unauthorized), the pass's whole trace is the three calls already made — no
session invalidation, no second Authenticate, no second FetchSink — and the
pass terminates immediately with the sink-read failure outcome, contradicting
the claimed exactly-once retry. -/
theorem unauthorized_sink_no_retry :
    sync_ports ⟨some ⟨200, "\x7b\"port\": 51413\x7d"⟩, some ⟨200, "Ok."⟩,
        some ⟨403, "Forbidden"⟩, some ⟨200, ""⟩⟩
      = ([Call.getGluetun, Call.login, Call.getPrefs],
          PassOutcome.sinkReadFailed) :=
  rfl

/-- C4 amended: whenever `get_qbittorrent_port` fails — unauthorized
responses included, which it does not even distinguish from other non-success
statuses — the pass terminates at once with the sink-read failure outcome;
no retry of the authenticate or sink-fetch stages occurs. -/
theorem sink_read_failure_terminates_pass (env : PassEnv) (p : Nat)
    (msg : String)
    (hsrc : get_gluetun_port env.gluetunResp = Except.ok p)
    (hauth : login_qbittorrent env.loginResp = Except.ok ())
    (hsink : get_qbittorrent_port env.prefsResp = Except.error msg) :
    sync_ports env
      = ([Call.getGluetun, Call.login, Call.getPrefs],
          PassOutcome.sinkReadFailed) := by
  simp [sync_ports, hsrc, hauth, hsink]

/-- Witness for the amended C4 at the concrete 403 preferences response. -/
theorem sink_read_failure_terminates_pass_witness :
    sync_ports ⟨some ⟨200, "\x7b\"port\": 51413\x7d"⟩, some ⟨200, "Ok."⟩,
        some ⟨401, "Unauthorized"⟩, some ⟨200, ""⟩⟩
      = ([Call.getGluetun, Call.login, Call.getPrefs],
          PassOutcome.sinkReadFailed) :=
  sink_read_failure_terminates_pass _ 51413
    "Failed to retrieve qBittorrent preferences" rfl rfl rfl

/-- C5 counterexample: a 2xx login response whose body is not the success
marker is still treated as authenticated — `login_qbittorrent` never reads
the body, so no InvalidCredentials failure arises from a non-matching 2xx
body. -/
theorem login_success_status_ignores_body :
    login_qbittorrent (some ⟨200, "Fails."⟩) = Except.ok () :=
  rfl

/-- C5 amended: `login_qbittorrent` classifies purely by status — the
account-locked error arises exactly on HTTP 403, any 2xx status is success
regardless of the body, and every other status yields the generic
invalid-credentials error. -/
theorem login_status_classification (r : HttpResponse) :
    (login_qbittorrent (some r) = Except.error accountLockedError
      ↔ r.status = 403) ∧
    (isSuccess r.status = true → login_qbittorrent (some r) = Except.ok ()) ∧
    (isSuccess r.status = false → r.status ≠ 403 →
      login_qbittorrent (some r) = Except.error invalidCredentialsError) := by
  refine ⟨⟨fun h => ?_, fun h403 => ?_⟩, fun hs => ?_, fun hs h403 => ?_⟩
  · by_cases hs : isSuccess r.status
    · simp [login_qbittorrent, hs] at h
    · by_cases h403 : r.status = 403
      · exact h403
      · simp only [login_qbittorrent, hs, h403] at h
        simp only [Bool.false_eq_true, if_false, if_neg h403,
          Except.error.injEq] at h
        exact absurd h (by decide)
  · simp [login_qbittorrent, h403, isSuccess]
  · simp [login_qbittorrent, hs]
  · simp [login_qbittorrent, hs, h403]

/-- Witness for the amended C5: HTTP 403 yields exactly the account-locked
error. -/
theorem login_status_classification_witness :
    login_qbittorrent (some ⟨403, "Ok."⟩) = Except.error accountLockedError :=
  (login_status_classification ⟨403, "Ok."⟩).1.mpr rfl

/-- C6: no pass failure escapes the scheduler loop — the loop produces one
result for every scheduled pass environment no matter how any pass fails
(`sync_ports` is total, mirroring its `()` return type in the source, so
every failure ends in a logged outcome rather than a propagated error); each
pass's trace and outcome are a function of that pass's own environment alone,
so no residual state from a failed pass affects a later one; and pass n + 1
starts only after pass n has ended and the full configured interval has
elapsed. -/
theorem pass_failures_isolated (envs : List PassEnv) (interval : Nat)
    (durations : Nat → Nat) (n : Nat) :
    (run_loop envs).length = envs.length ∧
    (run_loop envs).get? n = (envs.get? n).map sync_ports ∧
    passStart interval durations n + interval
      ≤ passStart interval durations (n + 1) := by
  refine ⟨by simp [run_loop], by simp [run_loop], ?_⟩
  simp only [passStart]
  omega

/-- C8 counterexample: a shutdown signal already received when the first
iteration starts does not stop the loop — with the signal raised on both
iterations the loop still executes both passes (two results), instead of
exiting after at most the in-flight pass (at most one result). -/
theorem shutdown_signal_ignored :
    (run_loop_with_signals
        [⟨⟨none, none, none, none⟩, true⟩,
          ⟨⟨none, none, none, none⟩, true⟩]).length = 2 ∧
    ¬((2 : Nat) ≤ 1) :=
  ⟨rfl, by decide⟩

/-- C8 amended: the scheduler loop in `main` contains no shutdown-signal
handling at all — its behavior is identical under any assignment of
shutdown signals to iterations, and it executes every scheduled iteration
rather than exiting; the process ends only through means outside the loop's
own logic. -/
theorem loop_runs_regardless_of_signal (inputs inputs2 : List LoopInput)
    (henv : inputs.map LoopInput.env = inputs2.map LoopInput.env) :
    run_loop_with_signals inputs = run_loop_with_signals inputs2 ∧
    (run_loop_with_signals inputs).length = inputs.length := by
  constructor
  · have h1 : run_loop_with_signals inputs
        = (inputs.map LoopInput.env).map sync_ports := by
      simp [run_loop_with_signals, List.map_map]
    have h2 : run_loop_with_signals inputs2
        = (inputs2.map LoopInput.env).map sync_ports := by
      simp [run_loop_with_signals, List.map_map]
    rw [h1, h2, henv]
  · simp [run_loop_with_signals]

/-- Witness for the amended C8: one iteration with the signal raised behaves
exactly as the same iteration with the signal absent. -/
theorem loop_runs_regardless_of_signal_witness :
    run_loop_with_signals [⟨⟨none, none, none, none⟩, true⟩]
      = run_loop_with_signals [⟨⟨none, none, none, none⟩, false⟩] :=
  (loop_runs_regardless_of_signal
    [⟨⟨none, none, none, none⟩, true⟩]
    [⟨⟨none, none, none, none⟩, false⟩] rfl).1

/-- Removing a variable makes it unreadable afterwards. -/
theorem env_var_remove_self (e : EnvMap) (n : String) :
    env_var (remove_var e n) n = none := by
  induction e with
  | nil => rfl
  | cons kv rest ih =>
    obtain ⟨k, v⟩ := kv
    by_cases hk : k = n <;> simp [remove_var, env_var, hk, ih]

/-- Removing a variable leaves every other variable's value unchanged. -/
theorem env_var_remove_other (e : EnvMap) (n m : String) (h : m ≠ n) :
    env_var (remove_var e n) m = env_var e m := by
  induction e with
  | nil => rfl
  | cons kv rest ih =>
    obtain ⟨k, v⟩ := kv
    by_cases hk : k = n
    · subst hk
      have hkm : ¬k = m := fun hh => h hh.symm
      simp [remove_var, env_var, ih, hkm]
    · by_cases hm : k = m <;> simp [remove_var, env_var, hk, hm, ih, h]

/-- A successful secret read yields the variable's value and the environment
with that variable removed. -/
theorem get_secret_from_env_eq (e : EnvMap) (name s : String) (e2 : EnvMap)
    (h : get_secret_from_env e name = some (s, e2)) :
    env_var e name = some s ∧ e2 = remove_var e name := by
  unfold get_secret_from_env at h
  cases he : env_var e name with
  | none => rw [he] at h; simp at h
  | some v =>
    rw [he] at h
    simp only [Option.some.injEq, Prod.mk.injEq] at h
    exact ⟨congrArg some h.1, h.2.symm⟩

/-- C9: after a successful startup, the two secret variables
QBITTORRENT_PASSWORD and GLUETUN_API_KEY have been removed from the process
environment (each was read once through `get_secret_from_env`), while every
other variable's binding is exactly as before startup. -/
theorem secrets_removed_from_env (e e2 : EnvMap) (cfg : Config)
    (h : startup e = some (cfg, e2)) :
    env_var e2 "QBITTORRENT_PASSWORD" = none ∧
    env_var e2 "GLUETUN_API_KEY" = none ∧
    ∀ name : String, name ≠ "QBITTORRENT_PASSWORD" →
      name ≠ "GLUETUN_API_KEY" → env_var e2 name = env_var e name := by
  simp only [startup, Option.bind_eq_some, Option.map_eq_some'] at h
  obtain ⟨url, hurl, user, huser, pe, hpe, gurl, hgurl, ke, hke, ivs, hivs,
    iv, hiv, hpair⟩ := h
  obtain ⟨pass, e1⟩ := pe
  obtain ⟨gkey, e2b⟩ := ke
  have he2 : e2 = e2b := (congrArg Prod.snd hpair).symm
  obtain ⟨hv1, hrm1⟩ := get_secret_from_env_eq _ _ _ _ hpe
  obtain ⟨hv2, hrm2⟩ := get_secret_from_env_eq _ _ _ _ hke
  simp only at hrm1 hrm2
  have he2r : e2 = remove_var (remove_var e "QBITTORRENT_PASSWORD")
      "GLUETUN_API_KEY" := by
    rw [he2, hrm2, hrm1]
  refine ⟨?_, ?_, ?_⟩
  · rw [he2r, env_var_remove_other _ _ _ (by decide), env_var_remove_self]
  · rw [he2r, env_var_remove_self]
  · intro name hn1 hn2
    rw [he2r, env_var_remove_other _ _ _ hn2, env_var_remove_other _ _ _ hn1]

/-- Witness for C9 at a concrete six-variable environment. -/
theorem secrets_removed_from_env_witness :
    env_var [("QBITTORRENT_URL", "u"), ("QBITTORRENT_USERNAME", "a"),
        ("GLUETUN_URL", "g"), ("INTERVAL_SECONDS", "300")]
      "QBITTORRENT_PASSWORD" = none :=
  (secrets_removed_from_env
    [("QBITTORRENT_URL", "u"), ("QBITTORRENT_USERNAME", "a"),
      ("QBITTORRENT_PASSWORD", "p"), ("GLUETUN_URL", "g"),
      ("GLUETUN_API_KEY", "k"), ("INTERVAL_SECONDS", "300")]
    [("QBITTORRENT_URL", "u"), ("QBITTORRENT_USERNAME", "a"),
      ("GLUETUN_URL", "g"), ("INTERVAL_SECONDS", "300")]
    ⟨"u", "a", "p", "g", "k", 300⟩ rfl).1

/-- C10: when the preferences response carries an integer `listen_port`
representable in u64 but at or above 65536, `get_qbittorrent_port` returns
the value reduced modulo 2^16 — the unchecked `as u16` cast — rather than an
error. -/
theorem sink_port_truncated_mod_u16 (r : HttpResponse) (j : Json) (n : Nat)
    (hstatus : isSuccess r.status = true)
    (hparse : parseJson r.body = some j)
    (hget : jsonGet j "listen_port" = some (Json.num (n : Int)))
    (hbound : n < 2 ^ 64) (hbig : 65536 ≤ n) :
    get_qbittorrent_port (some r) = Except.ok (n % 65536) := by
  have hnum : (2 : Nat) ^ 64 = 18446744073709551616 := by norm_num
  have hb : n < 18446744073709551616 := hnum ▸ hbound
  have hcond : (0 : Int) ≤ (n : Int) ∧ (n : Int) < 18446744073709551616 :=
    ⟨Int.ofNat_nonneg n, by exact_mod_cast hb⟩
  have hu : as_u64 (Json.num (n : Int)) = some n := by
    simp only [as_u64]
    rw [if_pos hcond]
    simp [Int.toNat_natCast]
  have h1 : get_qbittorrent_port (some r)
      = match (jsonGet j "listen_port").bind as_u64 with
        | some port => Except.ok (port % 65536)
        | none => Except.error "listen_port not found in preferences" := by
    simp only [get_qbittorrent_port, hstatus, if_true, hparse]
  rw [h1, hget, Option.some_bind, hu]

/-- Witness for C10: sink value 70000 is returned as 4464 (70000 mod 65536),
silently truncated instead of rejected. -/
theorem sink_port_truncated_mod_u16_witness :
    get_qbittorrent_port (some ⟨200, "\x7b\"listen_port\": 70000\x7d"⟩)
      = Except.ok (70000 % 65536) :=
  sink_port_truncated_mod_u16 ⟨200, "\x7b\"listen_port\": 70000\x7d"⟩
    (Json.obj [("listen_port", Json.num 70000)]) 70000 rfl rfl rfl
    (by decide) (by decide)

end Qbitun
